import Mathlib

/-!
Verification of the deterministic slot-computation engine of the
`llm-ai-scheduler` repository: `app/scheduler.py` (functions `_parse_time`,
`_time_in_range`, `_datetime_in_preferred_times`, `_day_in_preferred_days`,
`_conflicts_with_existing`, `_respects_buffer`, `compute_slots`) over the
data model of `app/schema.py`.

Modelling conventions (shallow embedding of the Python source):

* Wall-clock times and absolute instants are integer **seconds**.  A naive
  Python `datetime` for calendar day with proleptic-Gregorian ordinal `o`
  (Python `date.toordinal`) at local time `hh:mm:ss` is encoded as the
  integer `o * 86400 + hh * 3600 + mm * 60 + ss`.  All datetimes the engine
  builds have zero seconds and microseconds, so second granularity is exact.

* A `ZoneInfo` timezone is modelled by the UTC offset (seconds) it attaches
  to a local wall-clock time under PEP 495 `fold=0` resolution; Python's
  `utcoffset` is a function of the local wall time.  The instant denoted by
  an aware datetime with wall time `w` is `w - offset w`.

* Python compares/subtracts two aware datetimes by their **naive wall
  values** when both carry the *same* `tzinfo` object, and by their denoted
  **instants** otherwise.  Every datetime built inside `compute_slots`
  carries the one spec `ZoneInfo` object; a timestamp parsed by
  `datetime.fromisoformat` carries either a fixed-offset `datetime.timezone`
  (when the string had an offset) or, after `replace(tzinfo=tz)`, the very
  same spec `ZoneInfo` object.  The comparison helpers below implement
  exactly this case split.

* Fallible parsing (`datetime.fromisoformat` inside `try`/`except
  ValueError`) is modelled by `Option`: an `ExistingAppointment` stores
  `none` when either of its two timestamp strings fails to parse, and
  otherwise the pair of parsed timestamps.

* The two `while` loops of `compute_slots` are encoded as structurally
  recursive functions on a fuel argument; the fuel passed by `compute_slots`
  strictly exceeds the number of iterations the Python loops perform
  (each inner iteration advances `slot_start` by `slot_length_minutes * 60
  ≥ 300` seconds, each outer iteration advances `current` by one day), so
  the fuel never runs out on the states `compute_slots` reaches.
-/

namespace Sched

/-- Proleptic Gregorian calendar date: the value of a successful
`date.fromisoformat` on a `YYYY-MM-DD` string (`DateRange` fields of
`app/schema.py`). -/
structure CalDate where
  year : Nat
  month : Nat
  day : Nat
deriving DecidableEq

/-- Gregorian leap-year test, as in Python `datetime`. -/
def isLeap (y : Nat) : Bool :=
  (y % 4 == 0 && y % 100 != 0) || y % 400 == 0

/-- Days before the first of the given month, in a non-leap year. -/
def daysBeforeMonth : Nat → Nat
  | 1 => 0
  | 2 => 31
  | 3 => 59
  | 4 => 90
  | 5 => 120
  | 6 => 151
  | 7 => 181
  | 8 => 212
  | 9 => 243
  | 10 => 273
  | 11 => 304
  | 12 => 334
  | _ => 0

/-- Python `date.toordinal`: the number of days since 0000-12-31 in the
proleptic Gregorian calendar, so that date 0001-01-01 has ordinal 1. -/
def toOrdinal (d : CalDate) : Nat :=
  365 * (d.year - 1) + (d.year - 1) / 4 - (d.year - 1) / 100 + (d.year - 1) / 400
    + daysBeforeMonth d.month
    + (if 2 < d.month ∧ isLeap d.year then 1 else 0)
    + d.day

/-- A timezone: the UTC offset (seconds) that `ZoneInfo` attaches to each
local wall-clock time (PEP 495 `fold=0` resolution; for wall times inside a
DST gap or fold this is the offset in force before the transition). -/
structure Tz where
  offset : Int → Int

/-- The absolute instant (seconds on the UTC timeline) denoted by an aware
datetime with wall-clock time `wall` in timezone `tz`. -/
def instant (tz : Tz) (wall : Int) : Int :=
  wall - tz.offset wall

/-- A successfully parsed existing-appointment timestamp
(`datetime.fromisoformat(s.replace("Z", "+00:00"))` followed by the
timezone normalisation in `_conflicts_with_existing` / `_respects_buffer`):
`aware i` when the string carried a UTC offset (the timestamp denotes
instant `i` and keeps its fixed-offset `tzinfo`), `naive w` when it did not
(the scheduler attaches the spec `ZoneInfo` via `replace(tzinfo=tz)`, so
the timestamp is wall time `w` in the spec timezone). -/
inductive ParsedTs where
  | aware (i : Int)
  | naive (wall : Int)
deriving DecidableEq

/-- `slot_datetime < appointment_timestamp` where the slot datetime has wall
time `w` and carries the spec `ZoneInfo`: instant comparison against an
`aware` timestamp (distinct `tzinfo` objects), naive wall comparison against
a `naive` one (identical `tzinfo` object). -/
def slot_lt_appt (tz : Tz) (w : Int) : ParsedTs → Bool
  | .aware i => decide (instant tz w < i)
  | .naive wa => decide (w < wa)

/-- `slot_datetime > appointment_timestamp`; see `slot_lt_appt`. -/
def slot_gt_appt (tz : Tz) (w : Int) : ParsedTs → Bool
  | .aware i => decide (i < instant tz w)
  | .naive wa => decide (wa < w)

/-- `slot_datetime <= appointment_timestamp`; see `slot_lt_appt`. -/
def slot_le_appt (tz : Tz) (w : Int) : ParsedTs → Bool
  | .aware i => decide (instant tz w ≤ i)
  | .naive wa => decide (w ≤ wa)

/-- `slot_datetime >= appointment_timestamp`; see `slot_lt_appt`. -/
def slot_ge_appt (tz : Tz) (w : Int) : ParsedTs → Bool
  | .aware i => decide (i ≤ instant tz w)
  | .naive wa => decide (wa ≤ w)

/-- `appointment_timestamp - slot_datetime` in seconds (Python
`timedelta.total_seconds()`): instant difference against an `aware`
timestamp, naive wall difference against a `naive` one (same `tzinfo`). -/
def appt_sub_slot (tz : Tz) (t : ParsedTs) (w : Int) : Int :=
  match t with
  | .aware i => i - instant tz w
  | .naive wa => wa - w

/-- `slot_datetime - appointment_timestamp` in seconds; see `appt_sub_slot`. -/
def slot_sub_appt (tz : Tz) (w : Int) (t : ParsedTs) : Int :=
  match t with
  | .aware i => instant tz w - i
  | .naive wa => w - wa

/-- `ExistingAppointment` from `app/schema.py` after the timestamp parsing
performed by the scheduler: `parsed = none` iff `datetime.fromisoformat`
raises `ValueError` on the `start` or the `end` string (the `except` branch
skips the whole entry), otherwise the two parsed timestamps. -/
structure ExistingAppointment where
  parsed : Option (ParsedTs × ParsedTs)
deriving DecidableEq

/-- `TimeRange` from `app/schema.py` after `_parse_time`: the regex
`^\d{2}:\d{2}$` validates two two-digit fields per endpoint, and
`_parse_time` turns each `HH:MM` string into its two integers. -/
structure TimeRange where
  start_h : Int
  start_m : Int
  end_h : Int
  end_m : Int
deriving DecidableEq

/-- `DateRange` from `app/schema.py` after `date.fromisoformat` (the field
named `end` in the source is called `end_` here because `end` is a Lean
keyword). -/
structure DateRange where
  start : CalDate
  end_ : CalDate
deriving DecidableEq

/-- One element of the list returned by `compute_slots`: the dict
`{"start_iso": slot_start.isoformat(), "end_iso": slot_end.isoformat(),
"provider_id": ...}`.  `start_iso`/`end_iso` are the ISO renderings of
these wall-clock times together with the UTC offset the spec timezone
attaches to them, so for a fixed spec the wall values determine the
strings and vice versa. -/
structure Slot where
  start_wall : Int
  end_wall : Int
  provider_id : String
deriving DecidableEq

/-- `StructuredAvailability` from `app/schema.py`.  The `timezone` string
has already been resolved to a `Tz` (an unresolvable IANA name raises in
`ZoneInfo` before any slot computation).  The four proof fields embed the
pydantic validations `slot_length_minutes: ge=5, le=120` and
`buffer_minutes: ge=0, le=60`: no instance violating them can be
constructed, exactly as no such pydantic model can. -/
structure StructuredAvailability where
  provider_id : String
  tz : Tz
  slot_length_minutes : Int
  buffer_minutes : Int
  business_hours : TimeRange
  date_range : DateRange
  existing_appointments : List ExistingAppointment
  preferred_days : List Int
  preferred_times : List TimeRange
  slot_length_ge : 5 ≤ slot_length_minutes
  slot_length_le : slot_length_minutes ≤ 120
  buffer_ge : 0 ≤ buffer_minutes
  buffer_le : buffer_minutes ≤ 60

/-- Python `weekday()` of the calendar day containing the wall time `wall`
(Monday = 0 .. Sunday = 6); for an ordinal `o`, `weekday = (o + 6) % 7`.
`_day_in_preferred_days` computes it on `dt.astimezone(tz)` where `dt`
already carries `tz`, which is the identity on the wall time. -/
def weekday (wall : Int) : Int :=
  (wall.ediv 86400 + 6).emod 7

/-- `_day_in_preferred_days` (scheduler.py lines 41-46). -/
def day_in_preferred_days (wall : Int) (preferred_days : List Int) : Bool :=
  preferred_days.contains (weekday wall)

/-- `_time_in_range` (scheduler.py lines 15-27): minutes-of-day of the
local wall time (`local.hour * 60 + local.minute`, dropping seconds)
checked against `start_min <= curr_min < end_min`. -/
def time_in_range (wall : Int) (tr : TimeRange) : Bool :=
  decide (tr.start_h * 60 + tr.start_m ≤ (wall.emod 86400).ediv 60
    ∧ (wall.emod 86400).ediv 60 < tr.end_h * 60 + tr.end_m)

/-- `_datetime_in_preferred_times` (scheduler.py lines 30-38): vacuously
true for an empty list, otherwise `any`. -/
def datetime_in_preferred_times (wall : Int) (preferred_times : List TimeRange) : Bool :=
  preferred_times.isEmpty || preferred_times.any (time_in_range wall)

/-- Body of the `for appt in existing` loop of `_conflicts_with_existing`
(scheduler.py lines 56-71): a skipped (unparseable) entry never conflicts;
otherwise the half-open overlap test
`slot_start < appt_end and slot_end > appt_start`. -/
def appt_blocks (tz : Tz) (slot_start_w slot_end_w : Int)
    (a : ExistingAppointment) : Bool :=
  match a.parsed with
  | none => false
  | some (appt_start, appt_end) =>
      slot_lt_appt tz slot_start_w appt_end && slot_gt_appt tz slot_end_w appt_start

/-- `_conflicts_with_existing` (scheduler.py lines 49-72). -/
def conflicts_with_existing (tz : Tz) (slot_start_w slot_end_w : Int)
    (existing : List ExistingAppointment) : Bool :=
  existing.any (appt_blocks tz slot_start_w slot_end_w)

/-- Body of the `for appt in existing` loop of `_respects_buffer`
(scheduler.py lines 85-106).  Python computes the gap as
`total_seconds() / 60` (exact real division of an integer number of
seconds) and compares it with the integer `buffer_minutes`; over the
integers this is exactly `gap_seconds < buffer_minutes * 60`.  Note the
`if`/`elif`: when `slot_end <= appt_start` holds, the
`slot_start >= appt_end` side is never examined. -/
def appt_buffer_ok (tz : Tz) (slot_start_w slot_end_w : Int)
    (buffer_minutes : Int) (a : ExistingAppointment) : Bool :=
  match a.parsed with
  | none => true
  | some (appt_start, appt_end) =>
      if slot_le_appt tz slot_end_w appt_start then
        decide (¬ appt_sub_slot tz appt_start slot_end_w < buffer_minutes * 60)
      else if slot_ge_appt tz slot_start_w appt_end then
        decide (¬ slot_sub_appt tz slot_start_w appt_end < buffer_minutes * 60)
      else true

/-- `_respects_buffer` (scheduler.py lines 75-107): immediately true when
`buffer_minutes <= 0`, otherwise every appointment must pass
`appt_buffer_ok`. -/
def respects_buffer (tz : Tz) (slot_start_w slot_end_w : Int)
    (existing : List ExistingAppointment) (buffer_minutes : Int) : Bool :=
  decide (buffer_minutes ≤ 0)
    || existing.all (appt_buffer_ok tz slot_start_w slot_end_w buffer_minutes)

/-- The inner `while slot_start < day_end and len(slots) < max_slots` loop
of `compute_slots` (scheduler.py lines 146-180), stepping
`slot_start` by `slot_length_minutes` (wall-clock addition of a
`timedelta`, and wall-clock comparisons against `day_end`, which carries
the same `tzinfo`).  `fuel` is a structural bound on the number of
iterations; `compute_slots` passes more fuel than the Python loop can
consume. -/
def innerLoop (A : StructuredAvailability) (max_slots : Int) (dayEndWall : Int) :
    Nat → Int → List Slot → List Slot
  | 0, _, acc => acc
  | fuel + 1, slotStartWall, acc =>
    if slotStartWall < dayEndWall ∧ (acc.length : Int) < max_slots then
      if slotStartWall + A.slot_length_minutes * 60 > dayEndWall then
        acc
      else if ¬ day_in_preferred_days slotStartWall A.preferred_days then
        innerLoop A max_slots dayEndWall fuel
          (slotStartWall + A.slot_length_minutes * 60) acc
      else if ¬ datetime_in_preferred_times slotStartWall A.preferred_times then
        innerLoop A max_slots dayEndWall fuel
          (slotStartWall + A.slot_length_minutes * 60) acc
      else if conflicts_with_existing A.tz slotStartWall
          (slotStartWall + A.slot_length_minutes * 60) A.existing_appointments then
        innerLoop A max_slots dayEndWall fuel
          (slotStartWall + A.slot_length_minutes * 60) acc
      else if ¬ respects_buffer A.tz slotStartWall
          (slotStartWall + A.slot_length_minutes * 60) A.existing_appointments
          A.buffer_minutes then
        innerLoop A max_slots dayEndWall fuel
          (slotStartWall + A.slot_length_minutes * 60) acc
      else
        innerLoop A max_slots dayEndWall fuel
          (slotStartWall + A.slot_length_minutes * 60)
          (acc ++ [{ start_wall := slotStartWall,
                     end_wall := slotStartWall + A.slot_length_minutes * 60,
                     provider_id := A.provider_id }])
    else acc

/-- Wall-clock seconds-of-day of the business-hours day start
(`datetime(..., sh, sm, 0, tzinfo=tz)`). -/
def bhStartSecs (A : StructuredAvailability) : Int :=
  A.business_hours.start_h * 3600 + A.business_hours.start_m * 60

/-- Wall-clock seconds-of-day of the business-hours day end. -/
def bhEndSecs (A : StructuredAvailability) : Int :=
  A.business_hours.end_h * 3600 + A.business_hours.end_m * 60

/-- The outer `while current <= end_date and len(slots) < max_slots` loop
of `compute_slots` (scheduler.py lines 134-182): `current` is the ordinal
of the date being scanned (dates compare like their ordinals), each
iteration builds `day_start`/`day_end` on that date in the spec timezone,
runs the inner loop, and advances by one day. -/
def outerLoop (A : StructuredAvailability) (max_slots : Int) (endOrd : Nat) :
    Nat → Nat → List Slot → List Slot
  | 0, _, acc => acc
  | fuel + 1, current, acc =>
    if current ≤ endOrd ∧ (acc.length : Int) < max_slots then
      outerLoop A max_slots endOrd fuel (current + 1)
        (innerLoop A max_slots ((current : Int) * 86400 + bhEndSecs A)
          ((bhEndSecs A - bhStartSecs A).toNat / 60 + 2)
          ((current : Int) * 86400 + bhStartSecs A) acc)
    else acc

/-- `compute_slots` (scheduler.py lines 110-184).  The outer fuel
`endOrd + 1 - startOrd` is exactly the number of dates in the inclusive
range (0 when the range is inverted, in which case the Python loop body
never runs).  The final `slots[:max_slots]` is `take`; when `max_slots` is
negative the collected list is empty, so Python's negative-slice semantics
and `Int.toNat` agree on every reachable state. -/
def compute_slots (A : StructuredAvailability) (max_slots : Int) : List Slot :=
  (outerLoop A max_slots (toOrdinal A.date_range.end_)
    (toOrdinal A.date_range.end_ + 1 - toOrdinal A.date_range.start)
    (toOrdinal A.date_range.start) []).take max_slots.toNat

/-- Re-parse an emitted slot as an existing appointment: `start_iso` and
`end_iso` carry an explicit UTC offset, so feeding them back through
`datetime.fromisoformat` yields aware timestamps denoting exactly the
emitted instants. -/
def slot_as_appointment (tz : Tz) (sl : Slot) : ExistingAppointment :=
  ⟨some (.aware (instant tz sl.start_wall), .aware (instant tz sl.end_wall))⟩

/-- The round-trip spec: the first call's output appended to
`existing_appointments`. -/
def feed_back (A : StructuredAvailability) (n : Int) : StructuredAvailability :=
  { A with existing_appointments :=
      A.existing_appointments ++ (compute_slots A n).map (slot_as_appointment A.tz) }

/-- All checks of the step body of `compute_slots` that an emitted slot has
passed (scheduler.py lines 148-180), phrased on the stored wall times. -/
def slotOK (A : StructuredAvailability) (sl : Slot) : Prop :=
  sl.provider_id = A.provider_id ∧
  sl.end_wall = sl.start_wall + A.slot_length_minutes * 60 ∧
  day_in_preferred_days sl.start_wall A.preferred_days = true ∧
  datetime_in_preferred_times sl.start_wall A.preferred_times = true ∧
  conflicts_with_existing A.tz sl.start_wall sl.end_wall A.existing_appointments = false ∧
  respects_buffer A.tz sl.start_wall sl.end_wall A.existing_appointments
    A.buffer_minutes = true

lemma mem_innerLoop_ok (A : StructuredAvailability) (ms dEnd : Int) :
    ∀ (fuel : Nat) (s : Int) (acc : List Slot) (sl : Slot),
      sl ∈ innerLoop A ms dEnd fuel s acc → sl ∈ acc ∨ slotOK A sl := by
  intro fuel
  induction fuel with
  | zero =>
    intro s acc sl h
    exact Or.inl h
  | succ fuel ih =>
    intro s acc sl h
    rw [innerLoop] at h
    split_ifs at h <;>
      first
        | exact Or.inl h
        | exact ih _ _ _ h
        | exact (ih _ _ _ h).elim
            (fun h' => (List.mem_append.mp h').elim Or.inl
              (fun h'' => by
                rcases List.mem_singleton.mp h''
                exact Or.inr ⟨rfl, rfl, by simp_all, by simp_all,
                  by simp_all, by simp_all⟩))
            Or.inr

lemma mem_outerLoop_ok (A : StructuredAvailability) (ms : Int) (endOrd : Nat) :
    ∀ (fuel current : Nat) (acc : List Slot) (sl : Slot),
      sl ∈ outerLoop A ms endOrd fuel current acc → sl ∈ acc ∨ slotOK A sl := by
  intro fuel
  induction fuel with
  | zero =>
    intro c acc sl h
    exact Or.inl h
  | succ fuel ih =>
    intro c acc sl h
    rw [outerLoop] at h
    split_ifs at h with h1
    · rcases ih _ _ _ h with h' | h'
      · exact mem_innerLoop_ok A ms _ _ _ _ _ h'
      · exact Or.inr h'
    · exact Or.inl h

lemma mem_compute_slots_ok (A : StructuredAvailability) (n : Int) (sl : Slot)
    (h : sl ∈ compute_slots A n) : slotOK A sl := by
  have h' := List.take_subset _ _ h
  rcases mem_outerLoop_ok A n _ _ _ _ _ h' with h'' | h''
  · cases h''
  · exact h''

/-- The UTC timezone: constant zero offset. -/
def utcTz : Tz := ⟨fun _ => 0⟩

/-- The date 2025-02-03 (a Monday) used by the spec's concrete scenario. -/
def d20250203 : CalDate := ⟨2025, 2, 3⟩

/-- The booking 2025-02-03T10:00Z - 2025-02-03T10:30Z of the concrete
scenario; its ISO strings carry the UTC offset, so both timestamps parse
as aware. -/
def c2_booking : ExistingAppointment :=
  ⟨some (.aware ((toOrdinal d20250203 : Int) * 86400 + 36000),
         .aware ((toOrdinal d20250203 : Int) * 86400 + 37800))⟩

/-- The concrete scenario of the spec: UTC, business hours 09:00-17:00,
30-minute slots, 10-minute buffer, date range 2025-02-03 only, preferred
days Monday-Friday, no preferred times, one booking 10:00-10:30. -/
def c2Spec : StructuredAvailability where
  provider_id := "p"
  tz := utcTz
  slot_length_minutes := 30
  buffer_minutes := 10
  business_hours := ⟨9, 0, 17, 0⟩
  date_range := ⟨d20250203, d20250203⟩
  existing_appointments := [c2_booking]
  preferred_days := [0, 1, 2, 3, 4]
  preferred_times := []
  slot_length_ge := by norm_num
  slot_length_le := by norm_num
  buffer_ge := by norm_num
  buffer_le := by norm_num

example : toOrdinal ⟨1, 1, 1⟩ = 1 := by decide

example : weekday ((toOrdinal ⟨2025, 2, 3⟩ : Int) * 86400 + 32400) = 0 := by decide

example : weekday ((toOrdinal ⟨2025, 3, 9⟩ : Int) * 86400) = 6 := by decide

example : weekday ((toOrdinal ⟨1970, 1, 1⟩ : Int) * 86400) = 3 := by decide

/-- C2 (confirmed): on the concrete scenario (UTC, business 09:00-17:00,
30-minute slots, 10-minute buffer, range starting 2025-02-03, preferred
days Mon-Fri, no preferred times, booking 2025-02-03 10:00-10:30 UTC),
`compute_slots` emits 09:00-09:30 first; the step 09:30-10:00 fails the
buffer check (gap to the booking start is 0 < 10 min), 10:00-10:30
conflicts (overlap), 10:30-11:00 fails the buffer check (gap to the
booking end is 0 < 10 min); and 11:00-11:30 is the second emitted slot. -/
theorem c2_concrete_scenario :
    (compute_slots c2Spec 5).take 2 =
      [⟨(toOrdinal d20250203 : Int) * 86400 + 32400,
        (toOrdinal d20250203 : Int) * 86400 + 34200, "p"⟩,
       ⟨(toOrdinal d20250203 : Int) * 86400 + 39600,
        (toOrdinal d20250203 : Int) * 86400 + 41400, "p"⟩] ∧
    respects_buffer utcTz ((toOrdinal d20250203 : Int) * 86400 + 34200)
      ((toOrdinal d20250203 : Int) * 86400 + 36000) [c2_booking] 10 = false ∧
    conflicts_with_existing utcTz ((toOrdinal d20250203 : Int) * 86400 + 36000)
      ((toOrdinal d20250203 : Int) * 86400 + 37800) [c2_booking] = true ∧
    respects_buffer utcTz ((toOrdinal d20250203 : Int) * 86400 + 37800)
      ((toOrdinal d20250203 : Int) * 86400 + 39600) [c2_booking] 10 = false := by
  decide

lemma slot_le_appt_sub_nonneg (tz : Tz) (w : Int) (t : ParsedTs)
    (h : slot_le_appt tz w t = true) : 0 ≤ appt_sub_slot tz t w := by
  cases t <;> simp [slot_le_appt, appt_sub_slot] at * <;> omega

lemma slot_ge_appt_sub_nonneg (tz : Tz) (w : Int) (t : ParsedTs)
    (h : slot_ge_appt tz w t = true) : 0 ≤ slot_sub_appt tz w t := by
  cases t <;> simp [slot_ge_appt, slot_sub_appt] at * <;> omega

lemma not_blocks_of_conflicts_false {tz : Tz} {s e : Int}
    {existing : List ExistingAppointment}
    (h : conflicts_with_existing tz s e existing = false)
    {a : ExistingAppointment} (ha : a ∈ existing) : appt_blocks tz s e a = false := by
  cases hx : appt_blocks tz s e a
  · rfl
  · have : conflicts_with_existing tz s e existing = true :=
      List.any_eq_true.mpr ⟨a, ha, hx⟩
    rw [h] at this
    cases this

lemma buffer_ok_of_respects {tz : Tz} {s e : Int}
    {existing : List ExistingAppointment} {b : Int}
    (h : respects_buffer tz s e existing b = true) (hb : 0 < b)
    {a : ExistingAppointment} (ha : a ∈ existing) :
    appt_buffer_ok tz s e b a = true := by
  rw [respects_buffer, Bool.or_eq_true] at h
  rcases h with h | h
  · rw [decide_eq_true_eq] at h
    omega
  · exact List.all_eq_true.mp h a ha

/-- C1 (corrected): every slot returned by `compute_slots` is disjoint from
every existing booking whose timestamps parse (no overlap in the sense
`slot_start < booking_end and slot_end > booking_start`), and the buffer
holds in the `if`/`elif` order of `_respects_buffer`: when the booking
starts at or after the slot end, the gap to the booking start is at least
`buffer_minutes`; when that is not the case and the booking ends at or
before the slot start, the gap to the booking end is at least
`buffer_minutes`.  (The claim's unconditional adjacency requirement fails:
when both adjacency sides hold at once — possible for a parseable booking
whose end precedes its start — only the first side is checked; see the
counterexample.) -/
theorem c1_separation_amended (A : StructuredAvailability) (n : Int) (sl : Slot)
    (appt : ExistingAppointment) (ts te : ParsedTs)
    (hsl : sl ∈ compute_slots A n)
    (ha : appt ∈ A.existing_appointments)
    (hp : appt.parsed = some (ts, te)) :
    ¬(slot_lt_appt A.tz sl.start_wall te = true ∧
      slot_gt_appt A.tz sl.end_wall ts = true) ∧
    (slot_le_appt A.tz sl.end_wall ts = true →
      A.buffer_minutes * 60 ≤ appt_sub_slot A.tz ts sl.end_wall) ∧
    (slot_le_appt A.tz sl.end_wall ts = false →
      slot_ge_appt A.tz sl.start_wall te = true →
      A.buffer_minutes * 60 ≤ slot_sub_appt A.tz sl.start_wall te) := by
  obtain ⟨-, -, -, -, hconf, hbuf⟩ := mem_compute_slots_ok A n sl hsl
  refine ⟨?_, ?_, ?_⟩
  · rintro ⟨hlt, hgt⟩
    have hb := not_blocks_of_conflicts_false hconf ha
    rw [appt_blocks, hp] at hb
    simp [hlt, hgt] at hb
  · intro hle
    rcases le_or_lt A.buffer_minutes 0 with hb0 | hb0
    · have := slot_le_appt_sub_nonneg A.tz sl.end_wall ts hle
      omega
    · have hok := buffer_ok_of_respects hbuf hb0 ha
      rw [appt_buffer_ok, hp] at hok
      simp [hle] at hok
      omega
  · intro hleF hge
    rcases le_or_lt A.buffer_minutes 0 with hb0 | hb0
    · have := slot_ge_appt_sub_nonneg A.tz sl.start_wall te hge
      omega
    · have hok := buffer_ok_of_respects hbuf hb0 ha
      rw [appt_buffer_ok, hp] at hok
      simp [hleF, hge] at hok
      omega

/-- Closed instance of `c1_separation_amended` at the concrete scenario
spec: the 09:00-09:30 slot against the 10:00-10:30 booking. -/
theorem c1_separation_amended_witness :
    ¬(slot_lt_appt c2Spec.tz ((toOrdinal d20250203 : Int) * 86400 + 32400)
        (.aware ((toOrdinal d20250203 : Int) * 86400 + 37800)) = true ∧
      slot_gt_appt c2Spec.tz ((toOrdinal d20250203 : Int) * 86400 + 34200)
        (.aware ((toOrdinal d20250203 : Int) * 86400 + 36000)) = true) ∧
    (slot_le_appt c2Spec.tz ((toOrdinal d20250203 : Int) * 86400 + 34200)
        (.aware ((toOrdinal d20250203 : Int) * 86400 + 36000)) = true →
      c2Spec.buffer_minutes * 60 ≤ appt_sub_slot c2Spec.tz
        (.aware ((toOrdinal d20250203 : Int) * 86400 + 36000))
        ((toOrdinal d20250203 : Int) * 86400 + 34200)) ∧
    (slot_le_appt c2Spec.tz ((toOrdinal d20250203 : Int) * 86400 + 34200)
        (.aware ((toOrdinal d20250203 : Int) * 86400 + 36000)) = false →
      slot_ge_appt c2Spec.tz ((toOrdinal d20250203 : Int) * 86400 + 32400)
        (.aware ((toOrdinal d20250203 : Int) * 86400 + 37800)) = true →
      c2Spec.buffer_minutes * 60 ≤ slot_sub_appt c2Spec.tz
        ((toOrdinal d20250203 : Int) * 86400 + 32400)
        (.aware ((toOrdinal d20250203 : Int) * 86400 + 37800))) :=
  c1_separation_amended c2Spec 5
    ⟨(toOrdinal d20250203 : Int) * 86400 + 32400,
     (toOrdinal d20250203 : Int) * 86400 + 34200, "p"⟩
    c2_booking
    (.aware ((toOrdinal d20250203 : Int) * 86400 + 36000))
    (.aware ((toOrdinal d20250203 : Int) * 86400 + 37800))
    (by decide) (by decide) rfl

/-- A parseable booking whose `end` (09:25Z) precedes its `start` (12:00Z)
on 2025-02-03; nothing in `ExistingAppointment` validates ordering. -/
def c1_booking : ExistingAppointment :=
  ⟨some (.aware ((toOrdinal d20250203 : Int) * 86400 + 43200),
         .aware ((toOrdinal d20250203 : Int) * 86400 + 33900))⟩

/-- UTC spec with business hours 09:00-10:00 on 2025-02-03 and the
inverted booking `c1_booking`. -/
def c1Spec : StructuredAvailability where
  provider_id := "p"
  tz := utcTz
  slot_length_minutes := 30
  buffer_minutes := 10
  business_hours := ⟨9, 0, 10, 0⟩
  date_range := ⟨d20250203, d20250203⟩
  existing_appointments := [c1_booking]
  preferred_days := [0, 1, 2, 3, 4]
  preferred_times := []
  slot_length_ge := by norm_num
  slot_length_le := by norm_num
  buffer_ge := by norm_num
  buffer_le := by norm_num

/-- C1 counterexample: the slot 09:30-10:00 is returned although the
parseable booking `c1_booking` ends (09:25Z) at or before the slot start
(09:30Z) — adjacent in the claim's sense — with a gap of 5 minutes,
strictly less than `buffer_minutes = 10`.  The engine never examines this
side because the booking's start (12:00Z) is also at or after the slot
end, and the `if` branch of `_respects_buffer` wins. -/
theorem c1_claim_cex :
    (⟨(toOrdinal d20250203 : Int) * 86400 + 34200,
      (toOrdinal d20250203 : Int) * 86400 + 36000, "p"⟩ : Slot)
        ∈ compute_slots c1Spec 5 ∧
    c1_booking ∈ c1Spec.existing_appointments ∧
    c1_booking.parsed = some
      (.aware ((toOrdinal d20250203 : Int) * 86400 + 43200),
       .aware ((toOrdinal d20250203 : Int) * 86400 + 33900)) ∧
    slot_ge_appt c1Spec.tz ((toOrdinal d20250203 : Int) * 86400 + 34200)
      (.aware ((toOrdinal d20250203 : Int) * 86400 + 33900)) = true ∧
    slot_sub_appt c1Spec.tz ((toOrdinal d20250203 : Int) * 86400 + 34200)
      (.aware ((toOrdinal d20250203 : Int) * 86400 + 33900))
      < c1Spec.buffer_minutes * 60 := by
  decide

/-- UTC spec over 2025-02-03 with an explicitly empty `preferred_days`
list and no bookings. -/
def c3EmptySpec : StructuredAvailability where
  provider_id := "p"
  tz := utcTz
  slot_length_minutes := 30
  buffer_minutes := 10
  business_hours := ⟨9, 0, 17, 0⟩
  date_range := ⟨d20250203, d20250203⟩
  existing_appointments := []
  preferred_days := []
  preferred_times := []
  slot_length_ge := by norm_num
  slot_length_le := by norm_num
  buffer_ge := by norm_num
  buffer_le := by norm_num

/-- `c3EmptySpec` with `preferred_days = [0, 1, 2, 3, 4]`. -/
def c3FullSpec : StructuredAvailability :=
  { c3EmptySpec with preferred_days := [0, 1, 2, 3, 4] }

/-- C3 counterexample: with an explicitly empty `preferred_days` list the
result (no slots at all: `weekday in []` is always false) differs from the
result with `preferred_days = [0, 1, 2, 3, 4]` (which returns slots on
Monday 2025-02-03). -/
theorem c3_empty_days_cex :
    compute_slots c3EmptySpec 5 ≠ compute_slots c3FullSpec 5 := by
  decide

lemma innerLoop_empty_days (A : StructuredAvailability) (ms dEnd : Int)
    (h : A.preferred_days = []) :
    ∀ (fuel : Nat) (s : Int) (acc : List Slot),
      innerLoop A ms dEnd fuel s acc = acc := by
  have hd : ∀ w, day_in_preferred_days w A.preferred_days = false := by
    intro w
    simp [day_in_preferred_days, h]
  intro fuel
  induction fuel with
  | zero =>
    intro s acc
    rfl
  | succ fuel ih =>
    intro s acc
    rw [innerLoop]
    simp [hd, ih]

lemma outerLoop_empty_days (A : StructuredAvailability) (ms : Int) (endOrd : Nat)
    (h : A.preferred_days = []) :
    ∀ (fuel current : Nat) (acc : List Slot),
      outerLoop A ms endOrd fuel current acc = acc := by
  intro fuel
  induction fuel with
  | zero =>
    intro c acc
    rfl
  | succ fuel ih =>
    intro c acc
    rw [outerLoop]
    simp [innerLoop_empty_days A ms _ h, ih]

/-- C3 (corrected): a spec that *omits* `preferred_days` receives the
pydantic default `[0, 1, 2, 3, 4]` (Mon-Fri), but for a spec whose
`preferred_days` list is explicitly empty, `_day_in_preferred_days` is
false on every day, so `compute_slots` returns the empty list — which
differs from the `[0, 1, 2, 3, 4]` result whenever the latter is
non-empty. -/
theorem c3_empty_days_amended (A : StructuredAvailability) (n : Int)
    (h : A.preferred_days = []) : compute_slots A n = [] := by
  rw [compute_slots, outerLoop_empty_days A n _ h, List.take_nil]

/-- Closed instance of `c3_empty_days_amended` at `c3EmptySpec`. -/
theorem c3_empty_days_amended_witness : compute_slots c3EmptySpec 5 = [] :=
  c3_empty_days_amended c3EmptySpec 5 rfl

/-- C4 (corrected): every returned slot spans exactly
`slot_length_minutes` of *wall-clock* time, and its end instant minus its
start instant equals `slot_length_minutes` minutes whenever the timezone
attaches the same UTC offset to both endpoints (all fixed-offset timezones,
and every slot not spanning a DST transition).  On a DST-transition day the
instant difference can differ from `slot_length_minutes`; see the
counterexample. -/
theorem c4_duration_amended (A : StructuredAvailability) (n : Int) (sl : Slot)
    (h : sl ∈ compute_slots A n) :
    sl.end_wall - sl.start_wall = A.slot_length_minutes * 60 ∧
    (A.tz.offset sl.end_wall = A.tz.offset sl.start_wall →
      instant A.tz sl.end_wall - instant A.tz sl.start_wall
        = A.slot_length_minutes * 60) := by
  obtain ⟨-, h2, -⟩ := mem_compute_slots_ok A n sl h
  refine ⟨by omega, fun ho => ?_⟩
  rw [instant, instant, ho]
  omega

/-- Closed instance of `c4_duration_amended` at the concrete scenario spec
and its first slot. -/
theorem c4_duration_amended_witness :
    ((toOrdinal d20250203 : Int) * 86400 + 34200)
      - ((toOrdinal d20250203 : Int) * 86400 + 32400)
      = c2Spec.slot_length_minutes * 60 ∧
    (c2Spec.tz.offset ((toOrdinal d20250203 : Int) * 86400 + 34200)
        = c2Spec.tz.offset ((toOrdinal d20250203 : Int) * 86400 + 32400) →
      instant c2Spec.tz ((toOrdinal d20250203 : Int) * 86400 + 34200)
        - instant c2Spec.tz ((toOrdinal d20250203 : Int) * 86400 + 32400)
        = c2Spec.slot_length_minutes * 60) :=
  c4_duration_amended c2Spec 5
    ⟨(toOrdinal d20250203 : Int) * 86400 + 32400,
     (toOrdinal d20250203 : Int) * 86400 + 34200, "p"⟩
    (by decide)

/-- The date 2025-03-09 (a Sunday), the US spring-forward date. -/
def d20250309 : CalDate := ⟨2025, 3, 9⟩

/-- First wall-clock second on 2025-03-09 at which the post-transition
offset applies (03:00 local; the skipped 02:00-02:59 wall times resolve to
the pre-transition offset under `fold=0`). -/
def nyGapEndWall : Int := (toOrdinal d20250309 : Int) * 86400 + 10800

/-- A timezone behaving like America/New_York across the 2025-03-09
spring-forward transition: UTC offset -05:00 for wall times before 03:00
local that day, -04:00 from 03:00 on. -/
def nySpringTz : Tz := ⟨fun w => if w < nyGapEndWall then -18000 else -14400⟩

/-- Spec in `nySpringTz` on 2025-03-09 with business hours 01:00-04:00 and
120-minute slots. -/
def nySpec120 : StructuredAvailability where
  provider_id := "p"
  tz := nySpringTz
  slot_length_minutes := 120
  buffer_minutes := 0
  business_hours := ⟨1, 0, 4, 0⟩
  date_range := ⟨d20250309, d20250309⟩
  existing_appointments := []
  preferred_days := [6]
  preferred_times := []
  slot_length_ge := by norm_num
  slot_length_le := by norm_num
  buffer_ge := by norm_num
  buffer_le := by norm_num

/-- C4 counterexample: on the spring-forward day the engine returns the
single slot 01:00-03:00 local (wall-clock length 120 min), whose start
denotes 06:00Z (offset -05:00) and whose end denotes 07:00Z (offset
-04:00): the end instant minus the start instant is 3600 seconds = 60
minutes, not `slot_length_minutes = 120` minutes. -/
theorem c4_duration_cex :
    compute_slots nySpec120 5 =
      [⟨(toOrdinal d20250309 : Int) * 86400 + 3600,
        (toOrdinal d20250309 : Int) * 86400 + 10800, "p"⟩] ∧
    instant nySpringTz ((toOrdinal d20250309 : Int) * 86400 + 10800)
      - instant nySpringTz ((toOrdinal d20250309 : Int) * 86400 + 3600)
      = 3600 ∧
    (3600 : Int) ≠ nySpec120.slot_length_minutes * 60 := by
  decide

lemma innerLoop_succ_cases (A : StructuredAvailability) (ms dEnd : Int)
    (fuel : Nat) (s : Int) (acc : List Slot) :
    innerLoop A ms dEnd (fuel + 1) s acc = acc ∨
    (innerLoop A ms dEnd (fuel + 1) s acc
        = innerLoop A ms dEnd fuel (s + A.slot_length_minutes * 60) acc
      ∧ s < dEnd ∧ s + A.slot_length_minutes * 60 ≤ dEnd) ∨
    (innerLoop A ms dEnd (fuel + 1) s acc
        = innerLoop A ms dEnd fuel (s + A.slot_length_minutes * 60)
            (acc ++ [⟨s, s + A.slot_length_minutes * 60, A.provider_id⟩])
      ∧ s < dEnd ∧ s + A.slot_length_minutes * 60 ≤ dEnd) := by
  rw [innerLoop]
  split_ifs <;>
    first
      | exact Or.inl rfl
      | exact Or.inr (Or.inl ⟨rfl, by omega, by omega⟩)
      | exact Or.inr (Or.inr ⟨rfl, by omega, by omega⟩)

lemma innerLoop_sorted (A : StructuredAvailability) (ms dEnd : Int) :
    ∀ (fuel : Nat) (s : Int) (acc : List Slot),
      List.Sorted (· < ·) (acc.map Slot.start_wall) →
      (∀ x ∈ acc, x.start_wall < s) →
      List.Sorted (· < ·) ((innerLoop A ms dEnd fuel s acc).map Slot.start_wall) ∧
      (∀ x ∈ innerLoop A ms dEnd fuel s acc, x.start_wall < dEnd ∨ x ∈ acc) := by
  intro fuel
  induction fuel with
  | zero =>
    intro s acc hs _
    exact ⟨hs, fun x hx => Or.inr hx⟩
  | succ fuel ih =>
    intro s acc hs hb
    have hstep : 0 < A.slot_length_minutes * 60 := by
      have := A.slot_length_ge
      omega
    rcases innerLoop_succ_cases A ms dEnd fuel s acc with heq | ⟨heq, hlt, -⟩ | ⟨heq, hlt, -⟩
    · rw [heq]
      exact ⟨hs, fun x hx => Or.inr hx⟩
    · rw [heq]
      exact ih _ acc hs (fun x hx => by have := hb x hx; omega)
    · rw [heq]
      have hball : ∀ x ∈ acc ++ [(⟨s, s + A.slot_length_minutes * 60,
          A.provider_id⟩ : Slot)], x.start_wall < s + A.slot_length_minutes * 60 := by
        intro x hx
        rcases List.mem_append.mp hx with hx' | hx'
        · have := hb x hx'
          omega
        · rcases List.mem_singleton.mp hx'
          show s < s + A.slot_length_minutes * 60
          omega
      have hsort : List.Sorted (· < ·) ((acc ++ [(⟨s, s + A.slot_length_minutes * 60,
          A.provider_id⟩ : Slot)]).map Slot.start_wall) := by
        rw [List.map_append]
        refine List.pairwise_append.mpr ⟨hs, by simp, ?_⟩
        intro a ha b hbm
        rcases List.mem_map.mp ha with ⟨y, hy, rfl⟩
        simp only [List.map_cons, List.map_nil, List.mem_singleton] at hbm
        subst hbm
        exact hb y hy
      obtain ⟨ih1, ih2⟩ := ih _ _ hsort hball
      refine ⟨ih1, fun x hx => ?_⟩
      rcases ih2 x hx with hxd | hxm
      · exact Or.inl hxd
      · rcases List.mem_append.mp hxm with hx' | hx'
        · exact Or.inr hx'
        · rcases List.mem_singleton.mp hx'
          refine Or.inl ?_
          show s < dEnd
          omega

lemma outerLoop_sorted (A : StructuredAvailability) (ms : Int) (endOrd : Nat)
    (hbh : bhEndSecs A ≤ 86400 + bhStartSecs A) :
    ∀ (fuel current : Nat) (acc : List Slot),
      List.Sorted (· < ·) (acc.map Slot.start_wall) →
      (∀ x ∈ acc, x.start_wall < (current : Int) * 86400 + bhStartSecs A) →
      List.Sorted (· < ·)
        ((outerLoop A ms endOrd fuel current acc).map Slot.start_wall) := by
  intro fuel
  induction fuel with
  | zero =>
    intro c acc hs _
    exact hs
  | succ fuel ih =>
    intro c acc hs hb
    rw [outerLoop]
    split_ifs with h1
    · obtain ⟨hs', hb'⟩ := innerLoop_sorted A ms ((c : Int) * 86400 + bhEndSecs A)
        _ _ acc hs hb
      refine ih (c + 1) _ hs' ?_
      intro x hx
      rcases hb' x hx with hxd | hxm
      · push_cast
        omega
      · have := hb x hxm
        push_cast
        push_cast at this
        omega
    · exact hs

/-- C5 (corrected): the returned list never exceeds `max(max_slots, 0)`
elements, and for every well-formed business-hours window (one not
extending more than a full day past its own start, true of every valid
`HH:MM` pair) the slots' start *wall-clock* times are strictly increasing
— hence the `start_iso` strings are in increasing local-time order.  The
claim's stronger assertion that the start *instants* are non-decreasing
fails on a DST-transition day; see the counterexample. -/
theorem c5_bounded_sorted_amended (A : StructuredAvailability) (n : Int)
    (hbh : bhEndSecs A ≤ 86400 + bhStartSecs A) :
    (compute_slots A n).length ≤ n.toNat ∧
    List.Sorted (· < ·) ((compute_slots A n).map Slot.start_wall) := by
  constructor
  · exact List.length_take_le _ _
  · have hsorted := outerLoop_sorted A n (toOrdinal A.date_range.end_) hbh
      (toOrdinal A.date_range.end_ + 1 - toOrdinal A.date_range.start)
      (toOrdinal A.date_range.start) [] (by simp) (by simp)
    rw [compute_slots, List.map_take]
    exact List.Pairwise.sublist (List.take_sublist _ _) hsorted

/-- Closed instance of `c5_bounded_sorted_amended` at the concrete
scenario spec. -/
theorem c5_bounded_sorted_amended_witness :
    (compute_slots c2Spec 5).length ≤ (5 : Int).toNat ∧
    List.Sorted (· < ·) ((compute_slots c2Spec 5).map Slot.start_wall) :=
  c5_bounded_sorted_amended c2Spec 5 (by decide)

/-- Spec in `nySpringTz` on 2025-03-09 with business hours 01:00-04:00 and
30-minute slots. -/
def nySpec30 : StructuredAvailability where
  provider_id := "p"
  tz := nySpringTz
  slot_length_minutes := 30
  buffer_minutes := 0
  business_hours := ⟨1, 0, 4, 0⟩
  date_range := ⟨d20250309, d20250309⟩
  existing_appointments := []
  preferred_days := [6]
  preferred_times := []
  slot_length_ge := by norm_num
  slot_length_le := by norm_num
  buffer_ge := by norm_num
  buffer_le := by norm_num

/-- C5 counterexample: on the spring-forward day the six returned slots
start at local wall times 01:00, 01:30, 02:00, 02:30, 03:00, 03:30, whose
start instants are NOT in non-decreasing order: the fourth slot (02:30
local, a skipped wall time resolved with the pre-transition offset -05:00,
instant 07:30Z) starts *after* the fifth slot (03:00 local, offset -04:00,
instant 07:00Z). -/
theorem c5_instant_order_cex :
    ((compute_slots nySpec30 10).map
        (fun sl => instant nySpringTz sl.start_wall)).length = 6 ∧
    ((compute_slots nySpec30 10).map
        (fun sl => instant nySpringTz sl.start_wall)).getD 4 0
      < ((compute_slots nySpec30 10).map
        (fun sl => instant nySpringTz sl.start_wall)).getD 3 0 := by
  decide

lemma conflicts_skip_malformed (tz : Tz) (s e : Int)
    (l1 l2 : List ExistingAppointment) (a : ExistingAppointment)
    (ha : a.parsed = none) :
    conflicts_with_existing tz s e (l1 ++ a :: l2)
      = conflicts_with_existing tz s e (l1 ++ l2) := by
  simp [conflicts_with_existing, appt_blocks, ha]

lemma respects_skip_malformed (tz : Tz) (s e : Int)
    (l1 l2 : List ExistingAppointment) (a : ExistingAppointment) (b : Int)
    (ha : a.parsed = none) :
    respects_buffer tz s e (l1 ++ a :: l2) b
      = respects_buffer tz s e (l1 ++ l2) b := by
  simp [respects_buffer, appt_buffer_ok, ha]

lemma innerLoop_congr_existing (A : StructuredAvailability)
    (E : List ExistingAppointment) (ms dEnd : Int)
    (hc : ∀ s e, conflicts_with_existing A.tz s e E
      = conflicts_with_existing A.tz s e A.existing_appointments)
    (hr : ∀ s e, respects_buffer A.tz s e E A.buffer_minutes
      = respects_buffer A.tz s e A.existing_appointments A.buffer_minutes) :
    ∀ (fuel : Nat) (s : Int) (acc : List Slot),
      innerLoop { A with existing_appointments := E } ms dEnd fuel s acc
        = innerLoop A ms dEnd fuel s acc := by
  intro fuel
  induction fuel with
  | zero =>
    intro s acc
    rfl
  | succ fuel ih =>
    intro s acc
    rw [innerLoop, innerLoop]
    dsimp only
    rw [hc, hr]
    simp only [ih]

lemma outerLoop_congr_existing (A : StructuredAvailability)
    (E : List ExistingAppointment) (ms : Int) (endOrd : Nat)
    (hc : ∀ s e, conflicts_with_existing A.tz s e E
      = conflicts_with_existing A.tz s e A.existing_appointments)
    (hr : ∀ s e, respects_buffer A.tz s e E A.buffer_minutes
      = respects_buffer A.tz s e A.existing_appointments A.buffer_minutes) :
    ∀ (fuel current : Nat) (acc : List Slot),
      outerLoop { A with existing_appointments := E } ms endOrd fuel current acc
        = outerLoop A ms endOrd fuel current acc := by
  intro fuel
  induction fuel with
  | zero =>
    intro c acc
    rfl
  | succ fuel ih =>
    intro c acc
    rw [outerLoop, outerLoop]
    dsimp only [bhStartSecs, bhEndSecs]
    rw [innerLoop_congr_existing A E ms _ hc hr]
    simp only [ih]

/-- C6 (confirmed): an existing appointment whose `start` or `end` fails
to parse (`parsed = none`, the `except ValueError: continue` branch) is
treated as non-conflicting — the result equals the result for the same
spec with that entry removed — and the computation is total (the embedding
is a function; no exception escapes). -/
theorem c6_malformed_skipped (A : StructuredAvailability) (n : Int)
    (l1 l2 : List ExistingAppointment) (a : ExistingAppointment)
    (ha : a.parsed = none) (hE : A.existing_appointments = l1 ++ a :: l2) :
    compute_slots A n
      = compute_slots { A with existing_appointments := l1 ++ l2 } n := by
  have hc : ∀ s e, conflicts_with_existing A.tz s e (l1 ++ l2)
      = conflicts_with_existing A.tz s e A.existing_appointments := by
    intro s e
    rw [hE, conflicts_skip_malformed A.tz s e l1 l2 a ha]
  have hr : ∀ s e, respects_buffer A.tz s e (l1 ++ l2) A.buffer_minutes
      = respects_buffer A.tz s e A.existing_appointments A.buffer_minutes := by
    intro s e
    rw [hE, respects_skip_malformed A.tz s e l1 l2 a A.buffer_minutes ha]
  rw [compute_slots, compute_slots]
  dsimp only
  rw [outerLoop_congr_existing A (l1 ++ l2) n _ hc hr]

/-- An appointment entry whose timestamps do not parse. -/
def badAppt : ExistingAppointment := ⟨none⟩

/-- `c2Spec` with a malformed appointment entry appended. -/
def c6Spec : StructuredAvailability :=
  { c2Spec with existing_appointments := c2Spec.existing_appointments ++ [badAppt] }

/-- Closed instance of `c6_malformed_skipped`: dropping the malformed
entry of `c6Spec` leaves the result unchanged. -/
theorem c6_malformed_skipped_witness :
    compute_slots c6Spec 5
      = compute_slots { c6Spec with
          existing_appointments := [c2_booking] ++ [] } 5 :=
  c6_malformed_skipped c6Spec 5 [c2_booking] [] badAppt rfl rfl

/-- Spec whose date range ends (2025-02-03) strictly before it starts
(2025-02-10). -/
def c7Spec : StructuredAvailability where
  provider_id := "p"
  tz := utcTz
  slot_length_minutes := 30
  buffer_minutes := 10
  business_hours := ⟨9, 0, 17, 0⟩
  date_range := ⟨⟨2025, 2, 10⟩, d20250203⟩
  existing_appointments := []
  preferred_days := [0, 1, 2, 3, 4]
  preferred_times := []
  slot_length_ge := by norm_num
  slot_length_le := by norm_num
  buffer_ge := by norm_num
  buffer_le := by norm_num

/-- C7 (confirmed): when the date range's end is strictly before its start
(Python `date` values compare like their ordinals), the date loop never
runs and `compute_slots` returns the empty list without raising (the
embedding is total). -/
theorem c7_inverted_range_empty (A : StructuredAvailability) (n : Int)
    (h : toOrdinal A.date_range.end_ < toOrdinal A.date_range.start) :
    compute_slots A n = [] := by
  rw [compute_slots]
  have h0 : toOrdinal A.date_range.end_ + 1 - toOrdinal A.date_range.start = 0 := by
    omega
  rw [h0]
  simp [outerLoop]

/-- Closed instance of `c7_inverted_range_empty` at `c7Spec`. -/
theorem c7_inverted_range_empty_witness : compute_slots c7Spec 5 = [] :=
  c7_inverted_range_empty c7Spec 5 (by decide)

/-- C9 (confirmed): `compute_slots` is deterministic — it is a pure
function of the spec value and `max_slots` (the embedding carries no other
state, mirroring the source's freedom from randomness, I/O and global
state), so equal inputs give identical slot lists, including identical
wall times (hence identical ISO strings) and provider identifiers. -/
theorem c9_deterministic (A B : StructuredAvailability) (m n : Int)
    (hAB : A = B) (hmn : m = n) : compute_slots A m = compute_slots B n := by
  subst hAB
  subst hmn
  rfl

/-- Closed instance of `c9_deterministic` at the concrete scenario spec. -/
theorem c9_deterministic_witness :
    compute_slots c2Spec 5 = compute_slots c2Spec 5 :=
  c9_deterministic c2Spec c2Spec 5 5 rfl rfl

/-- C10 (confirmed): for `max_slots ≤ 0` the outer loop's
`len(slots) < max_slots` conjunct is false at entry, so no day is ever
scanned and the result is the empty list. -/
theorem c10_nonpositive_max_empty (A : StructuredAvailability) (n : Int)
    (h : n ≤ 0) : compute_slots A n = [] := by
  rw [compute_slots]
  cases hf : toOrdinal A.date_range.end_ + 1 - toOrdinal A.date_range.start with
  | zero => simp [outerLoop]
  | succ f =>
    rw [outerLoop]
    have hc : ¬ (toOrdinal A.date_range.start ≤ toOrdinal A.date_range.end_
        ∧ ((([] : List Slot).length : Int) < n)) := by
      rintro ⟨-, h2⟩
      simp at h2
      omega
    rw [if_neg hc]
    simp

/-- Closed instance of `c10_nonpositive_max_empty` at the concrete
scenario spec with `max_slots = 0`. -/
theorem c10_nonpositive_max_empty_witness : compute_slots c2Spec 0 = [] :=
  c10_nonpositive_max_empty c2Spec 0 (by decide)

/-- C8 (corrected, part 1 — the amended property): a slot of the first
run whose start instant is strictly before its end instant is never
re-offered by the second run on `feed_back A n`: its own re-parsed booking
makes the identical step fail `_conflicts_with_existing`. -/
theorem c8_roundtrip_amended (A : StructuredAvailability) (n : Int)
    (sl sl' : Slot)
    (h1 : sl ∈ compute_slots A n)
    (hord : instant A.tz sl.start_wall < instant A.tz sl.end_wall)
    (h2 : sl' ∈ compute_slots (feed_back A n) n) :
    ¬(sl'.start_wall = sl.start_wall ∧ sl'.end_wall = sl.end_wall) := by
  rintro ⟨hES, hEE⟩
  obtain ⟨-, -, -, -, hconf, -⟩ := mem_compute_slots_ok _ n sl' h2
  have hmem : slot_as_appointment A.tz sl
      ∈ (feed_back A n).existing_appointments := by
    rw [feed_back]
    exact List.mem_append_right _ (List.mem_map_of_mem _ h1)
  have hb := not_blocks_of_conflicts_false hconf hmem
  rw [appt_blocks] at hb
  simp only [slot_as_appointment, feed_back] at hb ⊢
  simp only [slot_lt_appt, slot_gt_appt, hES, hEE, Bool.and_eq_false_iff,
    decide_eq_false_iff_not, not_lt] at hb
  omega

/-- Closed instance of `c8_roundtrip_amended` at the concrete scenario
spec: the first-run slot 09:00-09:30 versus the second-run slot
13:30-14:00. -/
theorem c8_roundtrip_amended_witness :
    ¬(((toOrdinal d20250203 : Int) * 86400 + 48600)
        = ((toOrdinal d20250203 : Int) * 86400 + 32400) ∧
      ((toOrdinal d20250203 : Int) * 86400 + 50400)
        = ((toOrdinal d20250203 : Int) * 86400 + 34200)) :=
  c8_roundtrip_amended c2Spec 5
    ⟨(toOrdinal d20250203 : Int) * 86400 + 32400,
     (toOrdinal d20250203 : Int) * 86400 + 34200, "p"⟩
    ⟨(toOrdinal d20250203 : Int) * 86400 + 48600,
     (toOrdinal d20250203 : Int) * 86400 + 50400, "p"⟩
    (by decide) (by decide) (by decide)

/-- C8 counterexample (part 2): on the spring-forward day the first run
emits the slot 02:30-03:00 local whose start instant (07:30Z) is *after*
its end instant (07:00Z); feeding the whole first result back as bookings,
the second run emits the very same slot again — the claim's "never
re-offer" round-trip property fails. -/
theorem c8_roundtrip_cex :
    (⟨(toOrdinal d20250309 : Int) * 86400 + 9000,
      (toOrdinal d20250309 : Int) * 86400 + 10800, "p"⟩ : Slot)
        ∈ compute_slots nySpec30 10 ∧
    (⟨(toOrdinal d20250309 : Int) * 86400 + 9000,
      (toOrdinal d20250309 : Int) * 86400 + 10800, "p"⟩ : Slot)
        ∈ compute_slots (feed_back nySpec30 10) 10 := by
  decide

end Sched
